/-
Verification of the remediation-engine core of the MCP_PROJECT repository
(src/mcp-server/ai_agent_new.py) against its natural-language specification.

The Python source is shallowly embedded: pure computations become Lean
functions, the external control plane (kubectl subprocess calls, the MCP
HTTP server, the Ollama oracle) is modelled by explicit result values
passed in (`FixEnv`, the `oracle` argument), and Python exceptions are
modelled by `Option`/explicit outcome values.  Python integers are `Int`
(arbitrary precision, like Python), times are `Nat` seconds.
-/
import Mathlib

namespace MCPAgent

/-! ### Python string primitives used by the agent -/

/-- Python's `str.isspace`-style whitespace set restricted to ASCII, the
characters matched by `\s` in the `re` patterns of the source and stripped
by `str.strip()` / `int()`. -/
def isPySpace (c : Char) : Bool :=
  c = ' ' || c = '\t' || c = '\n' || c = '\r' || c = '\x0b' || c = '\x0c'

/-- Python `str.strip()` on a character list: drop whitespace from both ends. -/
def pyStrip (cs : List Char) : List Char :=
  ((cs.dropWhile isPySpace).reverse.dropWhile isPySpace).reverse

/-- Boolean list-prefix test (used to implement `str.endswith`). -/
def listPrefixOf : List Char → List Char → Bool
  | [], _ => true
  | _ :: _, [] => false
  | a :: l, b :: m => (a = b) && listPrefixOf l m

/-- Python `s.endswith(suf)`. -/
def strEndsWith (s suf : String) : Bool :=
  listPrefixOf suf.data.reverse s.data.reverse

/-- Python slicing `s[:-n]` for `n ≥ 1` (empty when `n ≥ len(s)`). -/
def strDropRight (s : String) (n : Nat) : String :=
  ⟨(s.data.reverse.drop n).reverse⟩

/-- Substring occurrence test on character lists (`needle`, `haystack`). -/
def containsSub : List Char → List Char → Bool
  | n, [] => n.isPrefixOf []
  | n, h :: t => n.isPrefixOf (h :: t) || containsSub n t

/-- Python's `sub in s` test on strings (line 497 of the source:
`if "RESTART" in action_taken`). -/
def pyInStr (sub s : String) : Bool := containsSub sub.data s.data

/-- Value of a decimal digit character. -/
def digitVal (c : Char) : Nat := c.toNat - '0'.toNat

/-- Decimal value of a digit list. -/
def digitsToNat (l : List Char) : Nat :=
  l.foldl (fun a c => a * 10 + digitVal c) 0

/-- Python `int(s)` on a string: strips whitespace, accepts an optional
sign followed by decimal digits, raises `ValueError` (here: `none`)
otherwise.  (Digit-group underscores are not modelled.) -/
def pythonInt (s : String) : Option Int :=
  let cs := pyStrip s.data
  match cs with
  | '+' :: ds =>
      if ds ≠ [] ∧ ds.all (·.isDigit) then some (digitsToNat ds) else none
  | '-' :: ds =>
      if ds ≠ [] ∧ ds.all (·.isDigit) then some (-(digitsToNat ds : Int)) else none
  | ds =>
      if ds ≠ [] ∧ ds.all (·.isDigit) then some (digitsToNat ds) else none

/-- Python `int(float(s) * 1000)` for plain decimal literals
(`digits`, `digits.digits`, `.digits`, `digits.`, with optional sign):
used by `parse_cpu` for whole/fractional core counts.  Modelled with exact
decimal arithmetic (truncation toward zero), ignoring binary floating-point
rounding; exponent forms are not modelled.  `none` models a raised
`ValueError`. -/
def pyFloatMilli (s : String) : Option Int :=
  let cs := pyStrip s.data
  let (neg, cs) := match cs with
    | '-' :: r => (true, r)
    | '+' :: r => (false, r)
    | r => (false, r)
  let intPart := cs.takeWhile (·.isDigit)
  let rest := cs.drop intPart.length
  let fracPart : Option (List Char) := match rest with
    | [] => some []
    | '.' :: r => if r.all (·.isDigit) then some r else none
    | _ => none
  match fracPart with
  | none => none
  | some frac =>
      if intPart = [] ∧ frac = [] then none
      else
        let mag : Nat :=
          digitsToNat intPart * 1000 + digitsToNat frac * 1000 / 10 ^ frac.length
        some (if neg then -(mag : Int) else (mag : Int))

/-! ### Data model (§3 of the spec)

`Diagnosis` is the oracle's verdict dict; the fields mirror the JSON keys
demanded by the prompt in `ask_ai_for_diagnosis`. -/

structure Diagnosis where
  root_cause : String
  fix_type : String
  fix_action : String
  should_restart : Bool
  severity : String
deriving DecidableEq, Repr

/-- One entry of `pod.spec.containers` as read in the resources branch of
`apply_fix` (name and current limits). -/
structure Container where
  name : String
  memLimit : Option String
  cpuLimit : Option String
deriving DecidableEq, Repr

/-- Result of the `kubectl get pod -o json` call in the resources branch:
`ok` with the container list on exit code 0, `errorStatus` on a nonzero
exit code (the Python falls through both `if`s and returns `None`),
`raised` when the subprocess call raises (caught by the `except`). -/
inductive PodSpecResult where
  | ok (containers : List Container)
  | errorStatus
  | raised
deriving DecidableEq, Repr

/-- The resource patch body built at lines 339-359 of the source
(limits/requests strings for one named container). -/
structure ResourcePatch where
  containerName : String
  limits_memory : String
  limits_cpu : String
  requests_memory : String
  requests_cpu : String
deriving DecidableEq, Repr

/-- Mutating control-plane calls issued by `apply_fix`
(`kubectl patch deployment …` and `kubectl delete pod …`). -/
inductive CPCall where
  | patchDeployment (deployment ns : String) (patch : ResourcePatch)
  | deletePod (ns pod : String)
deriving DecidableEq, Repr

/-- Whether a control-plane call is a pod deletion. -/
def CPCall.isDeleteCall : CPCall → Bool
  | .deletePod _ _ => true
  | _ => false

/-- Results of the external collaborators consulted by one `apply_fix`
dispatch: `check_if_managed_pod` (is_managed, owner_kind),
`get_pod_owner_deployment`, the pod-spec fetch, and the exit status the
control plane would give the patch and delete calls.  The source captures
the delete result but never inspects it, so `delete_succeeds` is
(faithfully) unused by `apply_fix`. -/
structure FixEnv where
  is_managed : Bool
  owner_kind : String
  deployment : Option String
  podSpec : PodSpecResult
  patch_succeeds : Bool
  delete_succeeds : Bool
deriving DecidableEq, Repr

/-! ### ResourcePatchCalculator (§4.5): parsing, nested defs of `apply_fix` -/

/-- `parse_memory` (lines 309-317): `'128Mi'`-style strings to MiB.
`none` input models Python `None` (absent limit); the `Option Int` result
is `none` exactly when Python's `int()` raises. -/
def parse_memory (mem : Option String) : Option Int :=
  match mem with
  | none => some 256
  | some s =>
    if s.data = [] then some 256
    else if strEndsWith s "Mi" then pythonInt (strDropRight s 2)
    else if strEndsWith s "Gi" then (pythonInt (strDropRight s 2)).map (· * 1024)
    else some 256

/-- `parse_cpu` (lines 319-325): `'100m'`-style strings to millicores. -/
def parse_cpu (cpu : Option String) : Option Int :=
  match cpu with
  | none => some 500
  | some s =>
    if s.data = [] then some 500
    else if strEndsWith s "m" then pythonInt (strDropRight s 1)
    else pyFloatMilli s

/-! ### FixDispatcher (§4.6): `apply_fix` (lines 272-440) -/

/-- `apply_fix(namespace, pod, diagnosis)`: dispatch on `fix_type`,
returning the outcome tag (`none` models the Python function falling off
the end and returning `None`) together with the mutating control-plane
calls issued.  Branch order mirrors the source `elif` chain exactly:
resources, config, image, app_code, restart-or-should_restart, manual,
else. -/
def apply_fix (ns pod : String) (diagnosis : Diagnosis) (env : FixEnv) :
    Option String × List CPCall :=
  let fix_type := diagnosis.fix_type
  if fix_type = "resources" then
    match env.deployment with
    | none => (some "MANUAL_RESOURCE_FIX_NEEDED", [])
    | some deployment =>
      match env.podSpec with
      | .errorStatus => (none, [])
      | .raised => (some "RESOURCE_FIX_FAILED", [])
      | .ok containers =>
        match containers with
        | [] => (none, [])
        | c0 :: _ =>
          match parse_memory c0.memLimit, parse_cpu c0.cpuLimit with
          | some current_mem, some current_cpu =>
            let new_mem := max (current_mem * 3) 512
            let new_cpu := max (current_cpu * 3) 500
            let patch : ResourcePatch :=
              { containerName := c0.name
                limits_memory := toString new_mem ++ "Mi"
                limits_cpu := toString new_cpu ++ "m"
                requests_memory := toString (new_mem / 2) ++ "Mi"
                requests_cpu := toString (new_cpu / 2) ++ "m" }
            if env.patch_succeeds then
              (some "RESOURCES_FIXED", [.patchDeployment deployment ns patch])
            else
              (some "RESOURCE_FIX_FAILED", [.patchDeployment deployment ns patch])
          | _, _ => (some "RESOURCE_FIX_FAILED", [])
  else if fix_type = "config" then (some "CONFIG_FIX_NEEDED", [])
  else if fix_type = "image" then
    match env.deployment with
    | some _ => (some "IMAGE_FIX_NEEDED", [])
    | none => (some "MANUAL_IMAGE_FIX_NEEDED", [])
  else if fix_type = "app_code" then
    if env.is_managed = false then (some "APP_CODE_FIX_NEEDED_NO_DELETE", [])
    else if diagnosis.should_restart then
      (some "RESTARTED_FOR_LOGS", [.deletePod ns pod])
    else (some "APP_CODE_FIX_NEEDED", [])
  else if fix_type = "restart" ∨ diagnosis.should_restart = true then
    if env.is_managed = false then (some "STANDALONE_POD_NO_DELETE", [])
    else (some "RESTARTED", [.deletePod ns pod])
  else if fix_type = "manual" then (some "MANUAL_ACTION_NEEDED", [])
  else (some "MANUAL_REVIEW_NEEDED", [])

/-! ### RemediationPolicy (§4.4): module constants and the per-key gate -/

/-- `RESTART_COOLDOWN = 300` (line 14). -/
def RESTART_COOLDOWN : Nat := 300

/-- `MAX_RESTARTS = 2` (line 15). -/
def MAX_RESTARTS : Nat := 2

/-- `PROTECTED_NAMESPACES` (lines 17-22). -/
def PROTECTED_NAMESPACES : List String :=
  ["kube-system", "monitoring", "prometheus", "grafana"]

/-- One value of the `restart_history` dict: `{"count": …, "time": …}`. -/
structure RestartRecord where
  count : Nat
  time : Nat
deriving DecidableEq, Repr

/-- Result of the policy gate at the top of `diagnose_and_fix_pod`. -/
inductive PolicyDecision where
  | allow
  | deniedMaxAttempts
  | deniedCooldown
deriving DecidableEq, Repr

/-- The spec's `checkAndReserve`: the inline gate at lines 449-457 of
`diagnose_and_fix_pod`.  The history is modelled as a total map whose
default value is the Python `restart_history.get(key, {"count": 0,
"time": 0})` fallback.  Max-attempts is checked before cooldown, exactly
as in the source. -/
def checkAndReserve (hist : String → RestartRecord) (key : String) (now : Nat) :
    PolicyDecision :=
  let last := hist key
  if last.count ≥ MAX_RESTARTS then .deniedMaxAttempts
  else if now - last.time < RESTART_COOLDOWN then .deniedCooldown
  else .allow

/-- The spec's `recordRestart`: the history update at lines 497-501,
executed only when the outcome tag contains `"RESTART"`. -/
def recordRestart (hist : String → RestartRecord) (key : String) (now : Nat) :
    String → RestartRecord :=
  fun k => if k = key then ⟨(hist key).count + 1, now⟩ else hist k

/-- The hard-coded fallback verdict substituted at lines 478-484 when the
oracle diagnosis is unavailable. -/
def fallback_diagnosis : Diagnosis :=
  { root_cause := "Unknown - AI diagnosis unavailable"
    fix_type := "restart"
    fix_action := "Restart pod as fallback"
    should_restart := true
    severity := "medium" }

/-- The audit record appended by `log_action` (lines 89-128), reduced to
the fields the claims mention. -/
structure LogEntry where
  ns : String
  pod : String
  issue : String
  action : Option String
  diagnosis : Diagnosis
deriving DecidableEq, Repr

/-- Observable result of one `diagnose_and_fix_pod` call.  `raised` marks
the `TypeError` Python would raise at line 497 when `action_taken` is
`None` (`"RESTART" in None`); in that case the function has no return
value, so `proceeded` is `false`. -/
structure DFOut where
  proceeded : Bool
  history : String → RestartRecord
  action_taken : Option String
  ran_apply : Bool
  log : Option LogEntry
  used_diagnosis : Option Diagnosis
  calls : List CPCall
  raised : Bool

/-- `diagnose_and_fix_pod(namespace, pod, issue)` (lines 444-503).
External effects are parameters: `now` is `time.time()`, `hist` the
global `restart_history`, `oracle` the `ask_ai_for_diagnosis` result
(`none` = Python falsy: `None` or `{}`), `env` the control-plane
collaborator's responses for this dispatch. -/
def diagnose_and_fix_pod (ns pod issue : String) (now : Nat)
    (hist : String → RestartRecord) (oracle : Option Diagnosis)
    (env : FixEnv) : DFOut :=
  let key := ns ++ "/" ++ pod
  match checkAndReserve hist key now with
  | .deniedMaxAttempts =>
      ⟨false, hist, none, false, none, none, [], false⟩
  | .deniedCooldown =>
      ⟨false, hist, none, false, none, none, [], false⟩
  | .allow =>
    let ai_diagnosis := match oracle with
      | none => fallback_diagnosis
      | some d => d
    let res := apply_fix ns pod ai_diagnosis env
    let entry : LogEntry := ⟨ns, pod, issue, res.1, ai_diagnosis⟩
    match res.1 with
    | none =>
        ⟨false, hist, none, true, some entry, some ai_diagnosis, res.2, true⟩
    | some action =>
        let hist' := if pyInStr "RESTART" action
          then recordRestart hist key now
          else hist
        ⟨true, hist', some action, true, some entry, some ai_diagnosis,
          res.2, false⟩

/-! ### ProblemDetector (§4.1): `detect_unhealthy_pods` (lines 507-575) -/

/-- A flagged problem: `{"namespace": …, "pod": …, "issue": …}`. -/
structure Problem where
  ns : String
  pod : String
  issue : String
deriving DecidableEq, Repr

/-- One entry of `status.containerStatuses` as read by the detector:
`state.waiting.reason` (absent ⇒ `none`), the
`lastState.terminated.reason` with its `""` default, and `restartCount`
(`.get("restartCount", 0)`). -/
structure ContainerStatus where
  waitingReason : Option String
  lastTerminatedReason : String
  restartCount : Nat
deriving DecidableEq, Repr

/-- A pod as read by the detector. -/
structure Pod where
  name : String
  ns : String
  phase : Option String
  containerStatuses : List ContainerStatus
deriving DecidableEq, Repr

/-- Problems contributed by one container status (the per-container body
of the loop at lines 522-549): an independent CrashLoopBackOff check,
then OOMKilled with HighRestartCount as its `elif`. -/
def container_problems (ns name : String) (c : ContainerStatus) : List Problem :=
  (if c.waitingReason = some "CrashLoopBackOff"
    then [⟨ns, name, "CrashLoopBackOff"⟩] else [])
  ++ (if c.lastTerminatedReason = "OOMKilled" then [⟨ns, name, "OOMKilled"⟩]
      else if c.restartCount ≥ 5 then [⟨ns, name, "HighRestartCount"⟩]
      else [])

/-- Phase-based problems (lines 552-573); `Terminating` is only printed,
and `Running`/`Succeeded`/absent phases yield nothing. -/
def phase_problems (ns name : String) (phase : Option String) : List Problem :=
  if phase = some "Pending" then [⟨ns, name, "PodPending"⟩]
  else if phase = some "Failed" then [⟨ns, name, "PodFailed"⟩]
  else if phase = some "Unknown" then [⟨ns, name, "PodUnknown"⟩]
  else []

/-- `detect_unhealthy_pods(pods)`: protected namespaces are skipped before
classification; otherwise container problems (in container order) then
phase problems, in pod scan order. -/
def detect_unhealthy_pods (pods : List Pod) : List Problem :=
  pods.flatMap fun pod =>
    if pod.ns ∈ PROTECTED_NAMESPACES then []
    else
      (pod.containerStatuses.flatMap (container_problems pod.ns pod.name))
        ++ phase_problems pod.ns pod.name pod.phase

/-! ### DiagnosisOracleClient (§4.3): reply parsing in `ask_ai_for_diagnosis`
(lines 162-203).

The transport is external; what is embedded is the pure reply-processing
pipeline: the empty-reply check, the two `re.sub` fence strips, `.strip()`,
`json.loads`, and the brace-scanning fallback regex.  A `none` result is
the Python `return None` (the spec's Unavailable); totality of the Lean
function reflects that no exception escapes this code (every `json.loads`
call is wrapped in `try`/`except`). -/

/-- Values produced by `json.loads`.  Number literals keep their lexeme
(the agent never does arithmetic on them). -/
inductive PyJson where
  | null
  | bool (b : Bool)
  | numLit (lit : String)
  | str (s : String)
  | arr (xs : List PyJson)
  | obj (kvs : List (String × PyJson))

/-- JSON whitespace accepted between tokens by `json.loads`. -/
def jsonWs (c : Char) : Bool := c = ' ' || c = '\t' || c = '\n' || c = '\r'

/-- Hex digit value, `none` for non-hex characters. -/
def hexVal (c : Char) : Option Nat :=
  if c.isDigit then some (c.toNat - '0'.toNat)
  else if 'a' ≤ c ∧ c ≤ 'f' then some (c.toNat - 'a'.toNat + 10)
  else if 'A' ≤ c ∧ c ≤ 'F' then some (c.toNat - 'A'.toNat + 10)
  else none

/-- JSON string body parser (after the opening quote), decoding escapes
and rejecting raw control characters, as `json.loads` does in strict mode.
`\uXXXX` escapes are mapped through `Char.ofNat` (lone surrogates are not
modelled exactly). -/
def parseJsonStringAux : List Char → List Char → Option (String × List Char)
  | _, [] => none
  | acc, '"' :: r => some (⟨acc.reverse⟩, r)
  | acc, '\\' :: e :: r =>
    match e with
    | '"' => parseJsonStringAux ('"' :: acc) r
    | '\\' => parseJsonStringAux ('\\' :: acc) r
    | '/' => parseJsonStringAux ('/' :: acc) r
    | 'n' => parseJsonStringAux ('\n' :: acc) r
    | 't' => parseJsonStringAux ('\t' :: acc) r
    | 'r' => parseJsonStringAux ('\r' :: acc) r
    | 'b' => parseJsonStringAux ('\x08' :: acc) r
    | 'f' => parseJsonStringAux ('\x0c' :: acc) r
    | 'u' =>
      match r with
      | h1 :: h2 :: h3 :: h4 :: r' =>
        match hexVal h1, hexVal h2, hexVal h3, hexVal h4 with
        | some a, some b, some c, some d =>
            parseJsonStringAux (Char.ofNat (((a * 16 + b) * 16 + c) * 16 + d) :: acc) r'
        | _, _, _, _ => none
      | _ => none
    | _ => none
  | acc, c :: r =>
      if c.toNat < 0x20 then none else parseJsonStringAux (c :: acc) r

/-- JSON number lexeme: `-?(0|[1-9][0-9]*)(\.[0-9]+)?([eE][+-]?[0-9]+)?`,
plus the `NaN`/`Infinity`/`-Infinity` extensions `json.loads` accepts.
Returns the lexeme and the rest. -/
def parseNumberLit (cs : List Char) : Option (List Char × List Char) :=
  match cs with
  | 'N' :: 'a' :: 'N' :: r => some (['N', 'a', 'N'], r)
  | 'I' :: 'n' :: 'f' :: 'i' :: 'n' :: 'i' :: 't' :: 'y' :: r =>
      some ("Infinity".data, r)
  | '-' :: 'I' :: 'n' :: 'f' :: 'i' :: 'n' :: 'i' :: 't' :: 'y' :: r =>
      some ("-Infinity".data, r)
  | _ =>
    let (sign, cs1) := match cs with
      | '-' :: r => (['-'], r)
      | r => (([] : List Char), r)
    match cs1 with
    | '0' :: r =>
        let (fe, rest) := numFracExp r
        some (sign ++ '0' :: fe, rest)
    | c :: r =>
        if c.isDigit then
          let ds := r.takeWhile (·.isDigit)
          let (fe, rest) := numFracExp (r.drop ds.length)
          some (sign ++ c :: ds ++ fe, rest)
        else none
    | [] => none
where
  /-- Optional fraction and exponent parts. -/
  numFracExp (cs : List Char) : List Char × List Char :=
    let (frac, cs1) : List Char × List Char := match cs with
      | '.' :: r =>
        let ds := r.takeWhile (·.isDigit)
        if ds = [] then (([] : List Char), cs)
        else ('.' :: ds, r.drop ds.length)
      | _ => ([], cs)
    let (ex, cs2) : List Char × List Char := match cs1 with
      | e :: r =>
        if e = 'e' ∨ e = 'E' then
          let (sg, r1) : List Char × List Char := match r with
            | '+' :: r' => (['+'], r')
            | '-' :: r' => (['-'], r')
            | r' => (([] : List Char), r')
          let ds := r1.takeWhile (·.isDigit)
          if ds = [] then (([] : List Char), cs1)
          else (e :: sg ++ ds, r1.drop ds.length)
        else ([], cs1)
      | [] => ([], cs1)
    (frac ++ ex, cs2)

mutual

/-- Fueled JSON value parser (`json.loads` core).  Fuel bounds nesting
depth; `jsonLoads` supplies enough for its input. -/
def parseJsonValue : Nat → List Char → Option (PyJson × List Char)
  | 0, _ => none
  | fuel + 1, cs =>
    let cs := cs.dropWhile jsonWs
    match cs with
    | 'n' :: 'u' :: 'l' :: 'l' :: r => some (.null, r)
    | 't' :: 'r' :: 'u' :: 'e' :: r => some (.bool true, r)
    | 'f' :: 'a' :: 'l' :: 's' :: 'e' :: r => some (.bool false, r)
    | '"' :: r => (parseJsonStringAux [] r).map fun (s, r') => (.str s, r')
    | '[' :: r =>
      let r1 := r.dropWhile jsonWs
      (match r1 with
       | ']' :: r' => some (.arr [], r')
       | _ => parseArrayItems fuel r1 [])
    | '{' :: r =>
      let r1 := r.dropWhile jsonWs
      (match r1 with
       | '}' :: r' => some (.obj [], r')
       | _ => parseObjItems fuel r1 [])
    | _ => (parseNumberLit cs).map fun (lit, r) => (.numLit ⟨lit⟩, r)

/-- Comma-separated array elements up to `]`. -/
def parseArrayItems : Nat → List Char → List PyJson →
    Option (PyJson × List Char)
  | 0, _, _ => none
  | fuel + 1, cs, acc =>
    match parseJsonValue fuel cs with
    | none => none
    | some (v, r) =>
      match r.dropWhile jsonWs with
      | ',' :: r' => parseArrayItems fuel r' (acc ++ [v])
      | ']' :: r' => some (.arr (acc ++ [v]), r')
      | _ => none

/-- Comma-separated `"key": value` members up to `}`. -/
def parseObjItems : Nat → List Char → List (String × PyJson) →
    Option (PyJson × List Char)
  | 0, _, _ => none
  | fuel + 1, cs, acc =>
    match cs.dropWhile jsonWs with
    | '"' :: r =>
      match parseJsonStringAux [] r with
      | none => none
      | some (k, r1) =>
        match r1.dropWhile jsonWs with
        | ':' :: r2 =>
          match parseJsonValue fuel r2 with
          | none => none
          | some (v, r3) =>
            match r3.dropWhile jsonWs with
            | ',' :: r4 => parseObjItems fuel r4 (acc ++ [(k, v)])
            | '}' :: r4 => some (.obj (acc ++ [(k, v)]), r4)
            | _ => none
        | _ => none
    | _ => none

end

/-- `json.loads(s)`: parse a single value, requiring only trailing
whitespace after it ("Extra data" otherwise). -/
def jsonLoads (s : String) : Option PyJson :=
  match parseJsonValue (s.data.length + 1) s.data with
  | some (v, rest) => if rest.dropWhile jsonWs = [] then some v else none
  | none => none

/-! #### The two fence-stripping `re.sub`s (lines 182-184) -/

/-- The `\s*\n` tail of the leading-fence pattern, with the regex engine's
greedy-then-backtrack behaviour: consume whitespace up to and including
the last `'\n'` of the maximal whitespace run, failing if the run holds no
newline. -/
def consumeWsThenNewline (cs : List Char) : Option (List Char) :=
  let run := cs.takeWhile isPySpace
  match lastNewlineIdx run with
  | some i => some (cs.drop (i + 1))
  | none => none
where
  /-- Index of the last `'\n'` in a list, if any. -/
  lastNewlineIdx : List Char → Option Nat
    | [] => none
    | c :: r =>
      match lastNewlineIdx r with
      | some i => some (i + 1)
      | none => if c = '\n' then some 0 else none

/-- `re.sub(r'^```(?:json)?\s*\n', '', text)`: anchored at the start, so
at most one removal. -/
def stripLeadingFence (cs : List Char) : List Char :=
  if cs.take 3 = ['`', '`', '`'] then
    match consumeWsThenNewline
        (if (cs.drop 3).take 4 = ['j', 's', 'o', 'n'] then (cs.drop 3).drop 4
         else cs.drop 3) with
    | some r => r
    | none => cs
  else cs

/-- Does `\n```\s*$` match starting at the head of `cs` (reaching the end
of the string)? -/
def isTrailingFenceAt (cs : List Char) : Bool :=
  cs.take 4 = ['\n', '`', '`', '`'] && (cs.drop 4).all isPySpace

/-- `re.sub(r'\n```\s*$', '', text)`: drop the suffix starting at the
leftmost position where `\n```` is followed only by whitespace. -/
def stripTrailingFence : List Char → List Char
  | [] => []
  | c :: cs =>
    if isTrailingFenceAt (c :: cs) then [] else c :: stripTrailingFence cs

/-- The whole preprocessing applied to the oracle reply before the strict
parse: leading-fence sub, trailing-fence sub, `.strip()`. -/
def preprocessReply (s : String) : String :=
  ⟨pyStrip (stripTrailingFence (stripLeadingFence s.data))⟩

/-! #### The brace-scanning fallback
`re.search(r'\{[^{}]*(?:\{[^{}]*\}[^{}]*)*\}', text)` (line 191). -/

/-- Neither `{` nor `}` (the `[^{}]` character class). -/
def braceFree (c : Char) : Bool := c ≠ '{' && c ≠ '}'

/-- Greedy continuation of a match of the pattern after the opening `{`
and its `[^{}]*` run: repeatedly consume `\{[^{}]*\}[^{}]*` groups, then
the closing `}`.  `acc` is the text matched so far; returns the full
matched lexeme.  Mirrors the deterministic behaviour of the engine: once
an inner `{` appears it must be closed, or the match at this start
position fails. -/
def braceGroupLoop : Nat → List Char → List Char → Option (List Char)
  | 0, _, _ => none
  | fuel + 1, cs, acc =>
    match cs with
    | '}' :: _ => some (acc ++ ['}'])
    | '{' :: r =>
      let b := r.takeWhile braceFree
      (match r.drop b.length with
       | '}' :: r2 =>
         let c := r2.takeWhile braceFree
         braceGroupLoop fuel (r2.drop c.length)
           (acc ++ '{' :: b ++ '}' :: c)
       | _ => none)
    | _ => none

/-- Try to match the pattern at the head of `cs`. -/
def braceMatchAt (cs : List Char) : Option (List Char) :=
  match cs with
  | [] => none
  | c :: r =>
    if c = '{' then
      let a := r.takeWhile braceFree
      braceGroupLoop (r.length + 1) (r.drop a.length) ('{' :: a)
    else none

/-- `re.search` for the pattern: first position (left to right) where it
matches, returning the matched substring. -/
def findBraceGroup : List Char → Option (List Char)
  | [] => none
  | c :: r =>
    match braceMatchAt (c :: r) with
    | some m => some m
    | none => findBraceGroup r

/-- The reply-parsing pipeline of `ask_ai_for_diagnosis` (lines 174-199):
empty replies are `None`; otherwise strip fences and whitespace, attempt
`json.loads`, and on failure parse the first brace-delimited substring,
returning `None` when that too is absent or unparsable. -/
def ask_ai_for_diagnosis_parse (reply : String) : Option PyJson :=
  if reply = "" then none
  else
    let t := preprocessReply reply
    match jsonLoads t with
    | some v => some v
    | none =>
      match findBraceGroup t.data with
      | some g => jsonLoads ⟨g⟩
      | none => none

/-- `"```json\n" + s + "\n```"`: the code-fence wrapping tolerated by the
client. -/
def fenceWrap (s : String) : String := "```json\n" ++ s ++ "\n```"

/-! ### Helper lemmas -/

/-- `apply_fix` on a `"manual"` verdict with `should_restart` false walks
the whole `elif` chain to the manual branch. -/
theorem apply_fix_manual_no_restart (ns pod : String) (diagnosis : Diagnosis)
    (env : FixEnv) (h1 : diagnosis.fix_type = "manual")
    (h2 : diagnosis.should_restart = false) :
    apply_fix ns pod diagnosis env = (some "MANUAL_ACTION_NEEDED", []) := by
  simp [apply_fix, h1, h2]

/-- `apply_fix` on an `"app_code"` verdict for an unmanaged instance. -/
theorem apply_fix_app_code_unmanaged (ns pod : String) (diagnosis : Diagnosis)
    (env : FixEnv) (h1 : diagnosis.fix_type = "app_code")
    (h2 : env.is_managed = false) :
    apply_fix ns pod diagnosis env = (some "APP_CODE_FIX_NEEDED_NO_DELETE", []) := by
  simp [apply_fix, h1, h2]

/-- `apply_fix` on the restart branch (fallback verdict shape): outcome is
some tag for either ownership answer. -/
theorem apply_fix_restart_branch (ns pod : String) (diagnosis : Diagnosis)
    (env : FixEnv) (h1 : diagnosis.fix_type = "restart") :
    apply_fix ns pod diagnosis env =
      (if env.is_managed = false then (some "STANDALONE_POD_NO_DELETE", [])
       else (some "RESTARTED", [.deletePod ns pod])) := by
  simp [apply_fix, h1]

/-- Resources-branch reduction: with a found deployment, a fetched pod
spec and parsable limits, `apply_fix` issues exactly one patch built from
the head container. -/
theorem apply_fix_resources (ns pod : String) (diagnosis : Diagnosis)
    (env : FixEnv) (dep : String) (c0 : Container) (rest : List Container)
    (M C : Int) (h1 : diagnosis.fix_type = "resources")
    (h2 : env.deployment = some dep) (h3 : env.podSpec = .ok (c0 :: rest))
    (h4 : parse_memory c0.memLimit = some M)
    (h5 : parse_cpu c0.cpuLimit = some C) :
    apply_fix ns pod diagnosis env =
      ((if env.patch_succeeds then some "RESOURCES_FIXED"
        else some "RESOURCE_FIX_FAILED"),
       [CPCall.patchDeployment dep ns
         { containerName := c0.name
           limits_memory := toString (max (M * 3) 512) ++ "Mi"
           limits_cpu := toString (max (C * 3) 500) ++ "m"
           requests_memory := toString (max (M * 3) 512 / 2) ++ "Mi"
           requests_cpu := toString (max (C * 3) 500 / 2) ++ "m" }]) := by
  simp only [apply_fix, h1, h2, h3, h4, h5, if_pos rfl]
  cases hb : env.patch_succeeds <;> simp

/-- Resources-branch reduction when parsing the head container's memory
limit raises: the `except` clause reports `RESOURCE_FIX_FAILED` and no
patch is issued. -/
theorem apply_fix_resources_parse_raises (ns pod : String)
    (diagnosis : Diagnosis) (env : FixEnv) (dep : String) (c0 : Container)
    (rest : List Container) (h1 : diagnosis.fix_type = "resources")
    (h2 : env.deployment = some dep) (h3 : env.podSpec = .ok (c0 :: rest))
    (h4 : parse_memory c0.memLimit = none) :
    apply_fix ns pod diagnosis env = (some "RESOURCE_FIX_FAILED", []) := by
  simp [apply_fix, h1, h2, h3, h4]

/-- The policy gate reduced under hypotheses. -/
theorem checkAndReserve_allow (hist : String → RestartRecord) (key : String)
    (now : Nat) (h1 : (hist key).count < MAX_RESTARTS)
    (h2 : RESTART_COOLDOWN ≤ now - (hist key).time) :
    checkAndReserve hist key now = .allow := by
  simp only [checkAndReserve]
  rw [if_neg (by omega), if_neg (by omega)]

/-! ### Claim theorems -/

/-- C1 (code bug): the source never inspects the result of the
`kubectl delete` it runs in the restart branch.  With the control plane
rejecting the delete (`delete_succeeds = false`), `apply_fix` still
returns the outcome `"RESTARTED"` (not a `*Failed` tag), the dispatch is
insensitive to the delete result, and `diagnose_and_fix_pod` still
increments the per-instance restart attempt count — contradicting the
claim that a rejected delete yields a `*Failed` outcome with no count
mutation and that the count grows only on a successful restart. -/
theorem c1_failed_delete_still_tagged_restarted_and_counted :
    (apply_fix "default" "p1" ⟨"", "restart", "", true, ""⟩
        ⟨true, "Deployment", some "web", .ok [], true, false⟩).1 = some "RESTARTED"
    ∧ CPCall.deletePod "default" "p1" ∈
        (apply_fix "default" "p1" ⟨"", "restart", "", true, ""⟩
          ⟨true, "Deployment", some "web", .ok [], true, false⟩).2
    ∧ apply_fix "default" "p1" ⟨"", "restart", "", true, ""⟩
        ⟨true, "Deployment", some "web", .ok [], true, false⟩ =
      apply_fix "default" "p1" ⟨"", "restart", "", true, ""⟩
        ⟨true, "Deployment", some "web", .ok [], true, true⟩
    ∧ (diagnose_and_fix_pod "default" "p1" "CrashLoopBackOff" 1000
        (fun _ => ⟨0, 0⟩) (some ⟨"", "restart", "", true, ""⟩)
        ⟨true, "Deployment", some "web", .ok [], true, false⟩).history
        "default/p1" = ⟨1, 1000⟩ := by
  refine ⟨by decide, by decide, by decide, ?_⟩
  decide

/-- C2 counterexample: a `"manual"` verdict with `should_restart = true`
against a managed instance is captured by the earlier
restart-or-should_restart branch: the pod is deleted and the outcome is
`"RESTARTED"`, not `"MANUAL_ACTION_NEEDED"` — so the dispatcher does not
return ManualActionNeeded for *every* manual verdict regardless of
`should_restart`. -/
theorem c2_manual_should_restart_counterexample :
    apply_fix "default" "p1" ⟨"", "manual", "", true, ""⟩
        ⟨true, "Deployment", some "web", .ok [], true, true⟩ =
      (some "RESTARTED", [CPCall.deletePod "default" "p1"])
    ∧ (some "RESTARTED" : Option String) ≠ some "MANUAL_ACTION_NEEDED" := by
  exact ⟨by decide, by decide⟩

/-- C2 (amended): a `"manual"` verdict yields `MANUAL_ACTION_NEEDED` with
no control-plane call provided `should_restart` is false; when
`should_restart` is true the earlier restart branch captures the verdict
first (deleting a managed instance, sparing an unmanaged one). -/
theorem c2_manual_dispatch_amended (ns pod : String) (diagnosis : Diagnosis)
    (env : FixEnv) (h1 : diagnosis.fix_type = "manual") :
    (diagnosis.should_restart = false →
      apply_fix ns pod diagnosis env = (some "MANUAL_ACTION_NEEDED", []))
    ∧ (diagnosis.should_restart = true →
        apply_fix ns pod diagnosis env =
          (if env.is_managed = false then (some "STANDALONE_POD_NO_DELETE", [])
           else (some "RESTARTED", [.deletePod ns pod]))) := by
  constructor
  · intro h2
    exact apply_fix_manual_no_restart ns pod diagnosis env h1 h2
  · intro h2
    simp [apply_fix, h1, h2]

/-- Witness for `c2_manual_dispatch_amended`. -/
theorem c2_manual_dispatch_amended_witness :
    apply_fix "default" "p1" ⟨"", "manual", "", false, ""⟩
        ⟨true, "Deployment", some "web", .ok [], true, true⟩ =
      (some "MANUAL_ACTION_NEEDED", []) :=
  (c2_manual_dispatch_amended "default" "p1" ⟨"", "manual", "", false, ""⟩
    ⟨true, "Deployment", some "web", .ok [], true, true⟩ rfl).1 rfl

/-- C3: an `"app_code"` verdict dispatched against an instance not managed
by a controller returns `APP_CODE_FIX_NEEDED_NO_DELETE`, and no delete
call (indeed no mutating control-plane call at all) is issued. -/
theorem c3_app_code_unmanaged_never_deletes (ns pod : String)
    (diagnosis : Diagnosis) (env : FixEnv)
    (h1 : diagnosis.fix_type = "app_code") (h2 : env.is_managed = false) :
    (apply_fix ns pod diagnosis env).1 = some "APP_CODE_FIX_NEEDED_NO_DELETE"
    ∧ ∀ call ∈ (apply_fix ns pod diagnosis env).2,
        call.isDeleteCall = false := by
  rw [apply_fix_app_code_unmanaged ns pod diagnosis env h1 h2]
  exact ⟨rfl, by simp⟩

/-- Witness for `c3_app_code_unmanaged_never_deletes`. -/
theorem c3_app_code_unmanaged_never_deletes_witness :
    (apply_fix "default" "p1" ⟨"", "app_code", "", true, ""⟩
        ⟨false, "StandalonePod", none, .ok [], true, true⟩).1 =
      some "APP_CODE_FIX_NEEDED_NO_DELETE"
    ∧ ∀ call ∈ (apply_fix "default" "p1" ⟨"", "app_code", "", true, ""⟩
        ⟨false, "StandalonePod", none, .ok [], true, true⟩).2,
        call.isDeleteCall = false :=
  c3_app_code_unmanaged_never_deletes "default" "p1"
    ⟨"", "app_code", "", true, ""⟩
    ⟨false, "StandalonePod", none, .ok [], true, true⟩ rfl rfl

/-- C4: immediately after `recordRestart` the gate answers
Denied(CooldownActive) (the attempt count being below the ceiling); once
the cooldown window has elapsed it answers Allow below the ceiling; and at
the ceiling it answers Denied(MaxAttemptsReached) at *any* time, elapsed
or not — the max-attempts check precedes the cooldown check in the
source. -/
theorem c4_policy_cooldown_then_allow_unless_ceiling
    (hist : String → RestartRecord) (key : String) (now t : Nat) :
    ((recordRestart hist key now key).count < MAX_RESTARTS →
      checkAndReserve (recordRestart hist key now) key now = .deniedCooldown)
    ∧ (now + RESTART_COOLDOWN ≤ t →
        (recordRestart hist key now key).count < MAX_RESTARTS →
        checkAndReserve (recordRestart hist key now) key t = .allow)
    ∧ (MAX_RESTARTS ≤ (recordRestart hist key now key).count →
        checkAndReserve (recordRestart hist key now) key t =
          .deniedMaxAttempts) := by
  have hk : recordRestart hist key now key = ⟨(hist key).count + 1, now⟩ := by
    simp [recordRestart]
  refine ⟨?_, ?_, ?_⟩
  · intro h
    have h' : (hist key).count + 1 < MAX_RESTARTS := by simpa [hk] using h
    simp only [checkAndReserve, hk]
    rw [if_neg (Nat.not_le.mpr h'), if_pos (by rw [Nat.sub_self]; decide)]
  · intro ht h
    have h' : (hist key).count + 1 < MAX_RESTARTS := by simpa [hk] using h
    simp only [checkAndReserve, hk]
    rw [if_neg (Nat.not_le.mpr h'),
        if_neg (by omega : ¬ t - now < RESTART_COOLDOWN)]
  · intro h
    have h' : MAX_RESTARTS ≤ (hist key).count + 1 := by simpa [hk] using h
    simp only [checkAndReserve, hk]
    rw [if_pos h']

/-- Witness for `c4_policy_cooldown_then_allow_unless_ceiling`: a key with
no prior attempts is in cooldown immediately after a recorded restart and
allowed after the window; a key recorded at the ceiling is denied for
max attempts even long after the window. -/
theorem c4_policy_witness :
    checkAndReserve (recordRestart (fun _ => ⟨0, 0⟩) "default/p1" 1000)
        "default/p1" 1000 = .deniedCooldown
    ∧ checkAndReserve (recordRestart (fun _ => ⟨0, 0⟩) "default/p1" 1000)
        "default/p1" 1300 = .allow
    ∧ checkAndReserve (recordRestart (fun _ => ⟨1, 0⟩) "default/p1" 1000)
        "default/p1" 999999 = .deniedMaxAttempts :=
  ⟨(c4_policy_cooldown_then_allow_unless_ceiling (fun _ => ⟨0, 0⟩)
      "default/p1" 1000 1000).1 (by decide),
   (c4_policy_cooldown_then_allow_unless_ceiling (fun _ => ⟨0, 0⟩)
      "default/p1" 1000 1300).2.1 (by decide) (by decide),
   (c4_policy_cooldown_then_allow_unless_ceiling (fun _ => ⟨1, 0⟩)
      "default/p1" 1000 999999).2.2 (by decide)⟩

/-- C5: in the detector's per-container rules, a previous terminated
reason of OOMKilled yields an OOMKilled problem and suppresses
HighRestartCount (the `elif`); without OOMKilled, a restart count ≥ 5
yields HighRestartCount, and it coexists with the independently-checked
CrashLoopBackOff problem. -/
theorem c5_high_restart_is_else_of_oom (ns name : String)
    (c : ContainerStatus) :
    (c.lastTerminatedReason = "OOMKilled" →
      Problem.mk ns name "OOMKilled" ∈ container_problems ns name c
      ∧ Problem.mk ns name "HighRestartCount" ∉ container_problems ns name c)
    ∧ (c.lastTerminatedReason ≠ "OOMKilled" → 5 ≤ c.restartCount →
        Problem.mk ns name "HighRestartCount" ∈ container_problems ns name c)
    ∧ (c.lastTerminatedReason ≠ "OOMKilled" → 5 ≤ c.restartCount →
        c.waitingReason = some "CrashLoopBackOff" →
        Problem.mk ns name "CrashLoopBackOff" ∈ container_problems ns name c
        ∧ Problem.mk ns name "HighRestartCount" ∈ container_problems ns name c) := by
  have hHC : ("HighRestartCount" : String) ≠ "CrashLoopBackOff" := by decide
  have hHO : ("HighRestartCount" : String) ≠ "OOMKilled" := by decide
  refine ⟨?_, ?_, ?_⟩
  · intro h
    constructor
    · simp [container_problems, h]
    · simp only [container_problems, h, if_pos rfl, List.mem_append]
      rintro (hm | hm) <;>
        · split at hm <;> simp_all [Problem.mk.injEq]
  · intro h h5
    simp [container_problems, h, h5]
  · intro h h5 hw
    refine ⟨?_, ?_⟩ <;> simp [container_problems, h, h5, hw]

/-- Witness for `c5_high_restart_is_else_of_oom`. -/
theorem c5_high_restart_is_else_of_oom_witness :
    (Problem.mk "default" "p1" "OOMKilled" ∈
        container_problems "default" "p1" ⟨none, "OOMKilled", 7⟩
      ∧ Problem.mk "default" "p1" "HighRestartCount" ∉
        container_problems "default" "p1" ⟨none, "OOMKilled", 7⟩)
    ∧ (Problem.mk "default" "p1" "CrashLoopBackOff" ∈
        container_problems "default" "p1"
          ⟨some "CrashLoopBackOff", "Error", 7⟩
      ∧ Problem.mk "default" "p1" "HighRestartCount" ∈
        container_problems "default" "p1"
          ⟨some "CrashLoopBackOff", "Error", 7⟩) :=
  ⟨(c5_high_restart_is_else_of_oom "default" "p1" ⟨none, "OOMKilled", 7⟩).1
      rfl,
   (c5_high_restart_is_else_of_oom "default" "p1"
      ⟨some "CrashLoopBackOff", "Error", 7⟩).2.2 (by decide) (by decide) rfl⟩

/-- C6: the escalation through `apply_fix` patches the owning deployment
with `new = max(current × 3, floor)` (floor 512 MiB / 500 millicores) and
requests `new / 2`; concretely, limits `"128Mi"`/`"100m"` escalate to
`512Mi`/`500m` and absent limits (defaults 256/500) to `768Mi`/`1500m`. -/
theorem c6_escalation_rule (ns pod : String) (diagnosis : Diagnosis)
    (env : FixEnv) (dep : String) (c0 : Container) (rest : List Container)
    (M C : Int) (h1 : diagnosis.fix_type = "resources")
    (h2 : env.deployment = some dep) (h3 : env.podSpec = .ok (c0 :: rest))
    (h4 : parse_memory c0.memLimit = some M)
    (h5 : parse_cpu c0.cpuLimit = some C) :
    (apply_fix ns pod diagnosis env).2 =
      [CPCall.patchDeployment dep ns
        { containerName := c0.name
          limits_memory := toString (max (M * 3) 512) ++ "Mi"
          limits_cpu := toString (max (C * 3) 500) ++ "m"
          requests_memory := toString (max (M * 3) 512 / 2) ++ "Mi"
          requests_cpu := toString (max (C * 3) 500 / 2) ++ "m" }]
    ∧ parse_memory (some "128Mi") = some 128
    ∧ parse_cpu (some "100m") = some 100
    ∧ (apply_fix "default" "p1" ⟨"", "resources", "", false, ""⟩
        ⟨true, "Deployment", some "web",
          .ok [⟨"app", some "128Mi", some "100m"⟩], true, true⟩).2 =
      [CPCall.patchDeployment "web" "default"
        ⟨"app", "512Mi", "500m", "256Mi", "250m"⟩]
    ∧ (apply_fix "default" "p1" ⟨"", "resources", "", false, ""⟩
        ⟨true, "Deployment", some "web", .ok [⟨"app", none, none⟩],
          true, true⟩).2 =
      [CPCall.patchDeployment "web" "default"
        ⟨"app", "768Mi", "1500m", "384Mi", "750m"⟩] := by
  refine ⟨?_, by decide, by decide, by decide, by decide⟩
  rw [apply_fix_resources ns pod diagnosis env dep c0 rest M C h1 h2 h3 h4 h5]

/-- Witness for `c6_escalation_rule`. -/
theorem c6_escalation_rule_witness :
    (apply_fix "default" "p1" ⟨"", "resources", "", false, ""⟩
      ⟨true, "Deployment", some "web",
        .ok [⟨"app", some "2Gi", some "1"⟩], true, true⟩).2 =
    [CPCall.patchDeployment "web" "default"
      ⟨"app", "6144Mi", "3000m", "3072Mi", "1500m"⟩] :=
  (c6_escalation_rule "default" "p1" ⟨"", "resources", "", false, ""⟩
    ⟨true, "Deployment", some "web", .ok [⟨"app", some "2Gi", some "1"⟩],
      true, true⟩ "web" ⟨"app", some "2Gi", some "1"⟩ [] 2048 1000 rfl rfl
    rfl (by decide) (by decide)).1

/-- C7 counterexample: `"1.5Gi"` ends in `Gi` but `int("1.5")` raises, so
`parse_memory` does not yield the default 256 — instead the exception
aborts the resource fix with `RESOURCE_FIX_FAILED` — refuting the claim
that every unparsable string defaults to 256 without raising or aborting
the fix. -/
theorem c7_unparsable_memory_counterexample :
    parse_memory (some "1.5Gi") ≠ some 256
    ∧ parse_memory (some "1.5Gi") = none
    ∧ (apply_fix "default" "p1" ⟨"", "resources", "", false, ""⟩
        ⟨true, "Deployment", some "web",
          .ok [⟨"app", some "1.5Gi", none⟩], true, true⟩).1 =
      some "RESOURCE_FIX_FAILED" := by
  exact ⟨by decide, by decide, by decide⟩

/-- C7 (amended): `Mi` maps to its integral value and `Gi` to value ×
1024; absence or a string not ending in `Mi`/`Gi` defaults to 256; but a
`Mi`/`Gi`-suffixed string whose prefix is not a Python integer raises,
and the enclosing resource fix then aborts with `RESOURCE_FIX_FAILED`
instead of using the default. -/
theorem c7_parse_memory_amended :
    parse_memory none = some 256
    ∧ (∀ s : String, strEndsWith s "Mi" = false → strEndsWith s "Gi" = false →
        parse_memory (some s) = some 256)
    ∧ (∀ (s : String) (n : Int), pythonInt s = some n →
        parse_memory (some (s ++ "Mi")) = some n)
    ∧ (∀ (s : String) (n : Int), pythonInt s = some n →
        parse_memory (some (s ++ "Gi")) = some (n * 1024))
    ∧ (∀ (ns pod : String) (diagnosis : Diagnosis) (env : FixEnv)
        (dep : String) (c0 : Container) (rest : List Container),
        diagnosis.fix_type = "resources" → env.deployment = some dep →
        env.podSpec = .ok (c0 :: rest) → parse_memory c0.memLimit = none →
        apply_fix ns pod diagnosis env = (some "RESOURCE_FIX_FAILED", [])) := by
  refine ⟨rfl, ?_, ?_, ?_, ?_⟩
  · intro s h1 h2
    simp [parse_memory, h1, h2]
  · intro s n h
    have hd : (s ++ "Mi").data = s.data ++ ['M', 'i'] := String.data_append s "Mi"
    have hne : (s ++ "Mi").data ≠ [] := by simp [hd]
    have hew : strEndsWith (s ++ "Mi") "Mi" = true := by
      simp [strEndsWith, hd, List.reverse_append, listPrefixOf]
    have hdr : strDropRight (s ++ "Mi") 2 = s := by
      simp [strDropRight, hd, List.reverse_append]
    rw [parse_memory, if_neg hne, if_pos hew, hdr, h]
  · intro s n h
    have hd : (s ++ "Gi").data = s.data ++ ['G', 'i'] := String.data_append s "Gi"
    have hne : (s ++ "Gi").data ≠ [] := by simp [hd]
    have hewM : strEndsWith (s ++ "Gi") "Mi" = false := by
      simp [strEndsWith, hd, List.reverse_append, listPrefixOf]
    have hewG : strEndsWith (s ++ "Gi") "Gi" = true := by
      simp [strEndsWith, hd, List.reverse_append, listPrefixOf]
    have hdr : strDropRight (s ++ "Gi") 2 = s := by
      simp [strDropRight, hd, List.reverse_append]
    rw [parse_memory, if_neg hne, if_neg (by simp [hewM]), if_pos hewG, hdr, h]
    rfl
  · intro ns pod diagnosis env dep c0 rest h1 h2 h3 h4
    exact apply_fix_resources_parse_raises ns pod diagnosis env dep c0 rest
      h1 h2 h3 h4

/-- Witness for `c7_parse_memory_amended`. -/
theorem c7_parse_memory_amended_witness :
    parse_memory (some "invalid") = some 256
    ∧ parse_memory (some "128Mi") = some 128
    ∧ parse_memory (some "2Gi") = some 2048
    ∧ apply_fix "default" "p1" ⟨"", "resources", "", false, ""⟩
        ⟨true, "Deployment", some "web",
          .ok [⟨"app", some "xMi", none⟩], true, true⟩ =
      (some "RESOURCE_FIX_FAILED", []) :=
  ⟨c7_parse_memory_amended.2.1 "invalid" (by decide) (by decide),
   c7_parse_memory_amended.2.2.1 "128" 128 (by decide),
   c7_parse_memory_amended.2.2.2.1 "2" 2 (by decide),
   c7_parse_memory_amended.2.2.2.2 "default" "p1" ⟨"", "resources", "", false, ""⟩
     ⟨true, "Deployment", some "web", .ok [⟨"app", some "xMi", none⟩], true, true⟩
     "web" ⟨"app", some "xMi", none⟩ [] rfl rfl rfl (by decide)⟩

/-- C8: when the oracle diagnosis is unavailable (the empty reply indeed
parses to Unavailable) and the policy gate allows the attempt, the caller
substitutes exactly the hard-coded fallback verdict (fix_type `restart`,
should_restart true, severity `medium`), still dispatches it, logs the
problem, and returns having processed rather than skipped it. -/
theorem c8_fallback_verdict_dispatched_and_logged (ns pod issue : String)
    (now : Nat) (hist : String → RestartRecord) (env : FixEnv)
    (h1 : (hist (ns ++ "/" ++ pod)).count < MAX_RESTARTS)
    (h2 : RESTART_COOLDOWN ≤ now - (hist (ns ++ "/" ++ pod)).time) :
    ask_ai_for_diagnosis_parse "" = none
    ∧ (diagnose_and_fix_pod ns pod issue now hist none env).used_diagnosis =
        some fallback_diagnosis
    ∧ (diagnose_and_fix_pod ns pod issue now hist none env).ran_apply = true
    ∧ (diagnose_and_fix_pod ns pod issue now hist none env).log =
        some ⟨ns, pod, issue,
          (apply_fix ns pod fallback_diagnosis env).1, fallback_diagnosis⟩
    ∧ (diagnose_and_fix_pod ns pod issue now hist none env).proceeded = true := by
  have hA := checkAndReserve_allow hist (ns ++ "/" ++ pod) now h1 h2
  have hr : (apply_fix ns pod fallback_diagnosis env).1 =
      (if env.is_managed = false then some "STANDALONE_POD_NO_DELETE"
       else some "RESTARTED") := by
    rw [apply_fix_restart_branch ns pod fallback_diagnosis env rfl]
    cases env.is_managed <;> simp
  refine ⟨rfl, ?_, ?_, ?_, ?_⟩ <;>
    · simp only [diagnose_and_fix_pod, hA]
      cases hm : env.is_managed <;>
        simp_all [diagnose_and_fix_pod, hA, hr,
          apply_fix_restart_branch ns pod fallback_diagnosis env rfl]

/-- Witness for `c8_fallback_verdict_dispatched_and_logged`. -/
theorem c8_fallback_verdict_witness :
    ask_ai_for_diagnosis_parse "" = none
    ∧ (diagnose_and_fix_pod "default" "p1" "CrashLoopBackOff" 400
        (fun _ => ⟨0, 0⟩) none
        ⟨true, "Deployment", some "web", .ok [], true, true⟩).used_diagnosis =
      some fallback_diagnosis
    ∧ (diagnose_and_fix_pod "default" "p1" "CrashLoopBackOff" 400
        (fun _ => ⟨0, 0⟩) none
        ⟨true, "Deployment", some "web", .ok [], true, true⟩).ran_apply = true
    ∧ (diagnose_and_fix_pod "default" "p1" "CrashLoopBackOff" 400
        (fun _ => ⟨0, 0⟩) none
        ⟨true, "Deployment", some "web", .ok [], true, true⟩).log =
      some ⟨"default", "p1", "CrashLoopBackOff",
        (apply_fix "default" "p1" fallback_diagnosis
          ⟨true, "Deployment", some "web", .ok [], true, true⟩).1,
        fallback_diagnosis⟩
    ∧ (diagnose_and_fix_pod "default" "p1" "CrashLoopBackOff" 400
        (fun _ => ⟨0, 0⟩) none
        ⟨true, "Deployment", some "web", .ok [], true, true⟩).proceeded =
      true :=
  c8_fallback_verdict_dispatched_and_logged "default" "p1" "CrashLoopBackOff"
    400 (fun _ => ⟨0, 0⟩) ⟨true, "Deployment", some "web", .ok [], true, true⟩
    (by decide) (by decide)

/-- C10: a resources dispatch against a pod spec with more than one
container behaves exactly as if only the first container existed — the
current limits are read from, and the patch is computed for, the head
container alone — and every patch issued names only the first container,
leaving the others untouched. -/
theorem c10_resources_patch_only_first_container (ns pod : String)
    (diagnosis : Diagnosis) (env : FixEnv) (c0 c1 : Container)
    (rest : List Container) :
    apply_fix ns pod diagnosis { env with podSpec := .ok (c0 :: c1 :: rest) } =
      apply_fix ns pod diagnosis { env with podSpec := .ok [c0] }
    ∧ ∀ dep cns p,
        CPCall.patchDeployment dep cns p ∈
          (apply_fix ns pod diagnosis
            { env with podSpec := .ok (c0 :: c1 :: rest) }).2 →
        p.containerName = c0.name := by
  constructor
  · rfl
  · intro dep cns p hp
    simp only [apply_fix] at hp
    repeat' split at hp
    all_goals simp_all

/-- Witness for `c10_resources_patch_only_first_container`. -/
theorem c10_resources_patch_only_first_container_witness :
    apply_fix "default" "p1" ⟨"", "resources", "", false, ""⟩
        ⟨true, "Deployment", some "web",
          .ok [⟨"app", some "128Mi", some "100m"⟩, ⟨"side", none, none⟩],
          true, true⟩ =
      apply_fix "default" "p1" ⟨"", "resources", "", false, ""⟩
        ⟨true, "Deployment", some "web",
          .ok [⟨"app", some "128Mi", some "100m"⟩], true, true⟩
    ∧ (⟨"app", "512Mi", "500m", "256Mi", "250m"⟩ : ResourcePatch).containerName =
      "app" :=
  ⟨(c10_resources_patch_only_first_container "default" "p1"
      ⟨"", "resources", "", false, ""⟩
      ⟨true, "Deployment", some "web", .ok [], true, true⟩
      ⟨"app", some "128Mi", some "100m"⟩ ⟨"side", none, none⟩ []).1,
   (c10_resources_patch_only_first_container "default" "p1"
      ⟨"", "resources", "", false, ""⟩
      ⟨true, "Deployment", some "web", .ok [], true, true⟩
      ⟨"app", some "128Mi", some "100m"⟩ ⟨"side", none, none⟩ []).2
      "web" "default" ⟨"app", "512Mi", "500m", "256Mi", "250m"⟩ (by decide)⟩

/-! ### Lemmas for the oracle-reply pipeline (claim C9) -/

/-- A list at which the trailing-fence pattern matches consists only of
newlines, backticks and whitespace. -/
theorem chars_of_trailingFence {xs : List Char}
    (h : isTrailingFenceAt xs = true) :
    ∀ c ∈ xs, c = '\n' ∨ c = '`' ∨ isPySpace c = true := by
  rw [isTrailingFenceAt, Bool.and_eq_true] at h
  obtain ⟨h1, h2⟩ := h
  intro c hc
  rw [← List.take_append_drop 4 xs] at hc
  rcases List.mem_append.1 hc with hc | hc
  · rw [of_decide_eq_true h1] at hc
    simp only [List.mem_cons, List.not_mem_nil, or_false] at hc
    tauto
  · exact Or.inr (Or.inr (List.all_eq_true.1 h2 _ hc))

/-- The trailing-fence pattern never matches a list containing `'}'`. -/
theorem trailingFence_false_of_mem_rbrace {xs : List Char}
    (h : '}' ∈ xs) : isTrailingFenceAt xs = false := by
  by_contra hc
  rcases chars_of_trailingFence
      (by revert hc; cases isTrailingFenceAt xs <;> simp) '}' h with
    h' | h' | h'
  · exact absurd h' (by decide)
  · exact absurd h' (by decide)
  · exact absurd h' (by decide)

/-- The trailing `re.sub` removes exactly the final `"\n```"` from text of
the form `a ++ "}\n```"`. -/
theorem stripTrailingFence_closing (a : List Char) :
    stripTrailingFence (a ++ ['}', '\n', '`', '`', '`']) = a ++ ['}'] := by
  induction a with
  | nil => decide
  | cons c a ih =>
    have hf : isTrailingFenceAt (c :: (a ++ ['}', '\n', '`', '`', '`'])) = false :=
      trailingFence_false_of_mem_rbrace (by simp)
    rw [List.cons_append, stripTrailingFence, hf]
    simp [ih]

/-- The trailing `re.sub` leaves text ending in `'}'` unchanged. -/
theorem stripTrailingFence_rbrace_end (a : List Char) :
    stripTrailingFence (a ++ ['}']) = a ++ ['}'] := by
  induction a with
  | nil => decide
  | cons c a ih =>
    have hf : isTrailingFenceAt (c :: (a ++ ['}'])) = false :=
      trailingFence_false_of_mem_rbrace (by simp)
    rw [List.cons_append, stripTrailingFence, hf]
    simp [ih]

/-- The leading `re.sub` leaves text starting with `'{'` unchanged. -/
theorem stripLeadingFence_lbrace (xs : List Char) :
    stripLeadingFence ('{' :: xs) = '{' :: xs := rfl

/-- The leading `re.sub` removes exactly `"```json\n"` when the fenced
body starts with `'{'`. -/
theorem stripLeadingFence_fenced (xs : List Char) :
    stripLeadingFence
        ('`' :: '`' :: '`' :: 'j' :: 's' :: 'o' :: 'n' :: '\n' :: '{' :: xs) =
      '{' :: xs := rfl

/-- Every character surviving `stripLeadingFence` was in the input. -/
theorem mem_of_mem_stripLeadingFence {x : Char} {cs : List Char}
    (h : x ∈ stripLeadingFence cs) : x ∈ cs := by
  rw [stripLeadingFence] at h
  split at h
  · rcases hm : consumeWsThenNewline
        (if (cs.drop 3).take 4 = ['j', 's', 'o', 'n'] then (cs.drop 3).drop 4
         else cs.drop 3) with _ | r
    · rw [hm] at h; exact h
    · rw [hm] at h
      have hr : ∃ n, r = cs.drop n := by
        rw [consumeWsThenNewline] at hm
        split at hm
        · injection hm with hm'
          subst hm'
          by_cases hj : (cs.drop 3).take 4 = ['j', 's', 'o', 'n']
          · exact ⟨_, by rw [if_pos hj, List.drop_drop, List.drop_drop]⟩
          · exact ⟨_, by rw [if_neg hj, List.drop_drop]⟩
        · cases hm
      obtain ⟨n, rfl⟩ := hr
      exact (List.drop_sublist n cs).mem h
  · exact h

/-- Every character surviving `stripTrailingFence` was in the input. -/
theorem mem_of_mem_stripTrailingFence {x : Char} {cs : List Char}
    (h : x ∈ stripTrailingFence cs) : x ∈ cs := by
  induction cs with
  | nil => simp [stripTrailingFence] at h
  | cons c r ih =>
    rw [stripTrailingFence] at h
    split at h
    · cases h
    · rw [List.mem_cons] at h
      rcases h with rfl | h
      · exact List.mem_cons_self _ _
      · exact List.mem_cons_of_mem _ (ih h)

/-- Every character surviving `pyStrip` was in the input. -/
theorem mem_of_mem_pyStrip {x : Char} {cs : List Char}
    (h : x ∈ pyStrip cs) : x ∈ cs := by
  rw [pyStrip, List.mem_reverse] at h
  have h2 := (List.dropWhile_sublist isPySpace).mem h
  rw [List.mem_reverse] at h2
  exact (List.dropWhile_sublist isPySpace).mem h2

/-- The fallback brace scan finds nothing in brace-free text. -/
theorem findBraceGroup_eq_none {cs : List Char} (h : '{' ∉ cs) :
    findBraceGroup cs = none := by
  induction cs with
  | nil => rfl
  | cons c r ih =>
    rw [List.mem_cons, not_or] at h
    have hb : braceMatchAt (c :: r) = none := by
      rw [braceMatchAt, if_neg (fun hc : c = '{' => h.1 hc.symm)]
    rw [findBraceGroup, hb]
    exact ih h.2

/-- The preprocessing pipeline gives the same text for a `{…}` body and
its ```` ```json ````-fenced wrapping. -/
theorem preprocessReply_fenceWrap (mid : List Char) :
    preprocessReply (fenceWrap ⟨'{' :: (mid ++ ['}'])⟩) =
      preprocessReply ⟨'{' :: (mid ++ ['}'])⟩ := by
  have hdF : (fenceWrap ⟨'{' :: (mid ++ ['}'])⟩).data =
      '`' :: '`' :: '`' :: 'j' :: 's' :: 'o' :: 'n' :: '\n' :: '{' ::
        (mid ++ ['}', '\n', '`', '`', '`']) := by
    simp [fenceWrap, String.data_append]
  rw [preprocessReply, preprocessReply, hdF, stripLeadingFence_fenced]
  show (⟨pyStrip (stripTrailingFence (('{' :: mid) ++ ['}', '\n', '`', '`', '`']))⟩ : String) =
    ⟨pyStrip (stripTrailingFence (stripLeadingFence ('{' :: (mid ++ ['}']))))⟩
  rw [stripTrailingFence_closing, stripLeadingFence_lbrace]
  show (⟨pyStrip (('{' :: mid) ++ ['}'])⟩ : String) =
    ⟨pyStrip (stripTrailingFence ('{' :: (mid ++ ['}'])))⟩
  rw [show '{' :: (mid ++ ['}']) = ('{' :: mid) ++ ['}'] by simp,
    stripTrailingFence_rbrace_end]

/-- C9 counterexample: the reply `"42"` contains no brace-delimited JSON
object, yet the client returns the parsed number instead of Unavailable
(`json.loads` succeeds on any JSON value, not only objects) — refuting
the claim that every reply without a brace-delimited object yields
Unavailable. -/
theorem c9_no_brace_object_counterexample :
    '{' ∉ ("42" : String).data
    ∧ ask_ai_for_diagnosis_parse "42" = some (PyJson.numLit "42")
    ∧ ask_ai_for_diagnosis_parse "42" ≠ none := by
  refine ⟨by decide, rfl, ?_⟩
  rw [show ask_ai_for_diagnosis_parse "42" = some (PyJson.numLit "42") from rfl]
  simp

/-- C9 (amended): a reply that is a brace-delimited body wrapped in
```` ```json ```` fencing parses to exactly the same result as the
unwrapped body; and a reply that fails the strict JSON parse and contains
no `{` at all yields Unavailable (`none` — the total Lean model reflects
that no exception escapes). -/
theorem c9_fenced_reply_parses_identically :
    (∀ mid : List Char,
      ask_ai_for_diagnosis_parse (fenceWrap ⟨'{' :: (mid ++ ['}'])⟩) =
        ask_ai_for_diagnosis_parse ⟨'{' :: (mid ++ ['}'])⟩)
    ∧ (∀ reply : String, '{' ∉ reply.data →
        jsonLoads (preprocessReply reply) = none →
        ask_ai_for_diagnosis_parse reply = none) := by
  constructor
  · intro mid
    have hne1 : fenceWrap ⟨'{' :: (mid ++ ['}'])⟩ ≠ "" := by
      simp [fenceWrap, String.ext_iff, String.data_append]
    have hne2 : (⟨'{' :: (mid ++ ['}'])⟩ : String) ≠ "" := by
      simp [String.ext_iff]
    rw [ask_ai_for_diagnosis_parse, ask_ai_for_diagnosis_parse,
      if_neg hne1, if_neg hne2, preprocessReply_fenceWrap]
  · intro reply hb hl
    by_cases he : reply = ""
    · simp [ask_ai_for_diagnosis_parse, he]
    · have hbp : '{' ∉ (preprocessReply reply).data := fun hx =>
        hb (mem_of_mem_stripLeadingFence
          (mem_of_mem_stripTrailingFence (mem_of_mem_pyStrip hx)))
      rw [ask_ai_for_diagnosis_parse, if_neg he]
      simp only [hl, findBraceGroup_eq_none hbp]

/-- Witness for `c9_fenced_reply_parses_identically`. -/
theorem c9_fenced_reply_witness :
    ask_ai_for_diagnosis_parse (fenceWrap "{fix}") =
      ask_ai_for_diagnosis_parse "{fix}"
    ∧ ask_ai_for_diagnosis_parse "no json here" = none :=
  ⟨c9_fenced_reply_parses_identically.1 "fix".data,
   c9_fenced_reply_parses_identically.2 "no json here" (by decide) rfl⟩

end MCPAgent
